import Mathlib

/-!
Verification of the autoMEW repository: a shallow embedding of the two
utilities (`create_wallet.py` and `distribute_pol.py`) together with
theorems settling the specification's claims.

Modelling conventions:
* Python strings that are only carried around are Lean `String`s; the
  credential file contents, which the code normalizes character by
  character, are embedded as `List Char`.
* Machine integers (wei amounts, gas, nonces) are `Nat` — Python ints are
  arbitrary precision, so no modular wrap is needed.
* Library calls that can raise (`Web3.to_checksum_address`, signing /
  `send_raw_transaction` / `wait_for_transaction_receipt`) are fields of a
  `ChainEnv` record, returning `Except String α` where `error` is the
  raised exception's message.
* The wallet library (`Mnemonic.to_seed`, `Account.from_key`) is a
  `CryptoLib` record of abstract deterministic functions; `create_wallet.py`
  only composes them, so all claims about it are parametric in the library.
-/

namespace AutoMEW

/-! ## Constants from `distribute_pol.py` -/

def GAS_LIMIT : Nat := 21000

def POLYGON_CHAIN_ID : Nat := 137

/-! ## Credential loading (`load_private_key`, `distribute_pol.py` lines 39-58) -/

/-- Whitespace characters recognised by Python's `str.split()` /
`str.strip()` on ASCII input: the code runs
`private_key.strip()` then `''.join(private_key.split())`, whose net
effect is removing every such character. -/
def isPySpace (c : Char) : Bool :=
  c = ' ' || c = '\t' || c = '\n' || c = '\r' || c = Char.ofNat 11 || c = Char.ofNat 12

/-- Effect of `private_key.strip()` followed by
`''.join(private_key.split())` (lines 50-51): every whitespace character
is removed. -/
def stripSpace (raw : List Char) : List Char :=
  raw.filter (fun c => !(isPySpace c))

/-- Effect of lines 52-53: prepend `0x` when the cleaned string does not
already start with it. -/
def withHexMarker (pk : List Char) : List Char :=
  if pk.take 2 = ['0', 'x'] then pk else '0' :: 'x' :: pk

/-- Embedding of `load_private_key`. The argument is the contents of
`privatekey.txt`, `none` when the file does not exist (Python's
`FileNotFoundError` branch). Mirrors the source: remove all whitespace,
prepend `0x` when absent, then accept iff the length is exactly 66. -/
def load_private_key (contents : Option (List Char)) : Except String (List Char) :=
  match contents with
  | none => Except.error "privatekey.txt file not found. Please create this file with your private key."
  | some raw =>
    if (withHexMarker (stripSpace raw)).length ≠ 66 then
      Except.error "Invalid private key length"
    else
      Except.ok (withHexMarker (stripSpace raw))

/-- Hexadecimal digit predicate, the spec's notion of a well-encoded
secret ("exactly 64 hex characters after normalization"). Used only to
compare the code's acceptance condition against the spec's. -/
def isHexDigit (c : Char) : Bool :=
  ('0' ≤ c && c ≤ '9') || ('a' ≤ c && c ≤ 'f') || ('A' ≤ c && c ≤ 'F')

/-- The normalized secret in the spec's sense: whitespace removed and the
optional `0x` marker stripped. -/
def normalizedSecret (raw : List Char) : List Char :=
  if (stripSpace raw).take 2 = ['0', 'x'] then (stripSpace raw).drop 2 else stripSpace raw

/-! ## The distribution loop (`distribute_pol`, `distribute_pol.py` lines 122-197) -/

/-- The transaction dictionary built at lines 169-177. -/
structure Tx where
  fromAddr : String
  toAddr : String
  value : Nat
  nonce : Nat
  gas : Nat
  gasPrice : Nat
  chainId : Nat
deriving DecidableEq, Repr

/-- The fallible chain-facing operations used inside the loop.
`toChecksumAddress` embeds `Web3.to_checksum_address`;
`sendTx` embeds the composite `sign_transaction`; `send_raw_transaction`;
`wait_for_transaction_receipt`, returning the receipt's transaction hash.
An `Except.error` is a raised exception, caught at line 194. -/
structure ChainEnv where
  toChecksumAddress : String → Except String String
  sendTx : Tx → Except String String

/-- Outcome status of one iteration, matching the spec's
TransactionRecord statuses. -/
inductive Status where
  | simulated
  | sent
  | failed
deriving DecidableEq, Repr

/-- One per-recipient outcome entry, as written to the log. `nonceUsed`
is the nonce of the transaction dictionary built for this recipient,
`none` when the iteration failed before the dictionary was built
(checksum conversion raised). -/
structure TransactionRecord where
  position : Nat
  recipient : String
  status : Status
  nonceUsed : Option Nat
  txHash : Option String
  error : Option String
deriving DecidableEq, Repr

/-- The transaction dictionary exactly as assembled at lines 169-177,
for a checksummed recipient `ck`. -/
def mkTx (sender_address ck : String) (amount_wei nonce gas_price : Nat) : Tx :=
  { fromAddr := sender_address, toAddr := ck, value := amount_wei,
    nonce := nonce, gas := GAS_LIMIT, gasPrice := gas_price,
    chainId := POLYGON_CHAIN_ID }

/-- One iteration of the `for i, recipient in enumerate(...)` loop body
(lines 168-197): returns the log record together with the nonce counter
value for the next iteration. Faithful to the source's control flow: the
`nonce += 1` at line 192 sits inside the `try`, so any caught exception
skips it. -/
def processRecipient (env : ChainEnv) (test_mode : Bool) (sender_address : String)
    (amount_wei gas_price : Nat) (i nonce : Nat) (recipient : String) :
    TransactionRecord × Nat :=
  match env.toChecksumAddress recipient with
  | Except.error e =>
    ({ position := i, recipient := recipient, status := Status.failed,
       nonceUsed := none, txHash := none, error := some e }, nonce)
  | Except.ok ck =>
    let tx : Tx := mkTx sender_address ck amount_wei nonce gas_price
    if test_mode then
      ({ position := i, recipient := recipient, status := Status.simulated,
         nonceUsed := some tx.nonce, txHash := none, error := none }, nonce + 1)
    else
      match env.sendTx tx with
      | Except.ok h =>
        ({ position := i, recipient := recipient, status := Status.sent,
           nonceUsed := some tx.nonce, txHash := some h, error := none }, nonce + 1)
      | Except.error e =>
        ({ position := i, recipient := recipient, status := Status.failed,
           nonceUsed := some tx.nonce, txHash := none, error := some e }, nonce)

/-- The whole execution loop over the recipient list, starting at
1-indexed position `i` with nonce counter `nonce`; produces the ordered
list of log records. -/
def distributeLoop (env : ChainEnv) (test_mode : Bool) (sender_address : String)
    (amount_wei gas_price : Nat) : Nat → Nat → List String → List TransactionRecord
  | _, _, [] => []
  | i, nonce, r :: rs =>
    let step := processRecipient env test_mode sender_address amount_wei gas_price i nonce r
    step.1 :: distributeLoop env test_mode sender_address amount_wei gas_price (i + 1) step.2 rs

/-- Observed network state at preflight time (lines 141-143). -/
structure NetworkState where
  sender_address : String
  base_nonce : Nat
  sender_balance : Nat
  gas_price : Nat

/-- Fatal preflight errors surfaced by `distribute_pol`. -/
inductive DistError where
  | insufficientBalance (needed have_ : Nat)
deriving DecidableEq, Repr

/-- Total cost of the run as computed at lines 144-146:
`total_needed = total_per_transaction * len(recipient_addresses)`. -/
def total_needed (amount_wei gas_price recipient_count : Nat) : Nat :=
  (amount_wei + gas_price * GAS_LIMIT) * recipient_count

/-- Embedding of `distribute_pol` after credential loading and recipient
discovery: the preflight balance check at line 158, then the execution
loop. `amount_wei` is the already-converted base-unit amount
(`Web3.to_wei(amount, 'ether')`). An `Except.error` result is the raised
`ValueError`: no log file is created and no loop iteration runs. -/
def distribute_pol (env : ChainEnv) (net : NetworkState) (test_mode : Bool)
    (amount_wei : Nat) (recipients : List String) :
    Except DistError (List TransactionRecord) :=
  if net.sender_balance < total_needed amount_wei net.gas_price recipients.length then
    Except.error (DistError.insufficientBalance
      (total_needed amount_wei net.gas_price recipients.length) net.sender_balance)
  else
    Except.ok (distributeLoop env test_mode net.sender_address amount_wei net.gas_price
      1 net.base_nonce recipients)

/-! ## Wallet generation (`create_wallet.py`) -/

/-- The wallet/crypto library operations `create_wallet.py` composes:
`toSeed m p` is `Mnemonic.to_seed(m, passphrase=p)` (the 64-byte BIP39
seed), `addressFromKey k` is `w3.eth.account.from_key(k).address`, and
`keyHex k` is `account.key.hex()`. They are pure deterministic functions
of their arguments. -/
structure CryptoLib where
  toSeed : String → String → List Nat
  addressFromKey : List Nat → String
  keyHex : List Nat → String

/-- Record written for each wallet (`wallet_data` dict, lines 90-96). -/
structure KeyRecord where
  wallet_number : Nat
  public_key : String
  private_key : String
  mnemonic : String
  created_at : String
deriving DecidableEq, Repr

/-- Python truthiness of the optional `wallet_number` argument:
`None` and `0` are falsy. -/
def pyTruthy : Option Nat → Bool
  | none => false
  | some k => k ≠ 0

/-- Filename chosen at line 100:
`f"wallet_{timestamp}_{wallet_number}.json"` when `wallet_number` is
truthy, else `f"wallet_{timestamp}.json"`. -/
def wallet_filename (timestamp : String) (wallet_number : Option Nat) : String :=
  if pyTruthy wallet_number then
    "wallet_" ++ timestamp ++ "_" ++ toString (wallet_number.getD 0) ++ ".json"
  else
    "wallet_" ++ timestamp ++ ".json"

/-- Embedding of `generate_wallet` (lines 80-104). `mnemonic` is the
phrase produced by `mnemo.generate(strength=128)` from the run's entropy;
`now` is the `datetime.now()` string. The derivation is exactly the
source's: `seed = mnemo.to_seed(mnemonic)` (empty passphrase, the Python
default), `account = w3.eth.account.from_key(seed[:32])`. -/
def generate_wallet (lib : CryptoLib) (mnemonic : String) (wallet_number : Option Nat)
    (now : String) : KeyRecord :=
  let seed := lib.toSeed mnemonic ""
  let key := seed.take 32
  { wallet_number := if pyTruthy wallet_number then wallet_number.getD 0 else 1
  , public_key := lib.addressFromKey key
  , private_key := lib.keyHex key
  , mnemonic := mnemonic
  , created_at := now }

/-- Contents of the addresses-only file (`public_addresses_*.json`,
lines 146-152). -/
structure AddressesFile where
  addresses : List String
  count : Nat
  created_at : String
deriving DecidableEq, Repr

/-- Everything `generate_multiple_wallets` writes (besides the PDF, which
is pure presentation): the individual record files, the aggregate
`all_wallets_*.json` array and the addresses-only file. -/
structure MultiWalletsOutput where
  individual_files : List (String × KeyRecord)
  all_wallets : List KeyRecord
  addresses_file : AddressesFile

/-- Embedding of `generate_multiple_wallets` (lines 106-159). The loop
`for i in range(1, count + 1)` calls `generate_wallet(i)` with a fresh
mnemonic and timestamp each iteration (`mnems i`, `ts i`), appending the
record to `all_wallets` and its `public_key` to `public_addresses`;
`end_ts` is the `created_at` stamp of the addresses file. -/
def generate_multiple_wallets (lib : CryptoLib) (mnems ts : Nat → String)
    (end_ts : String) (count : Nat) : MultiWalletsOutput :=
  let idx := List.range' 1 count
  let all_wallets := idx.map (fun i => generate_wallet lib (mnems i) (some i) (ts i))
  let public_addresses := idx.map (fun i => (generate_wallet lib (mnems i) (some i) (ts i)).public_key)
  { individual_files := idx.map (fun i =>
      (wallet_filename (ts i) (some i), generate_wallet lib (mnems i) (some i) (ts i)))
  , all_wallets := all_wallets
  , addresses_file :=
    { addresses := public_addresses
    , count := public_addresses.length
    , created_at := end_ts } }

/-! ## Concrete instances used by witnesses and counterexamples -/

/-- An iteration consumed a nonce slot exactly when its status is not
`failed` (both checksum failures and send failures skip `nonce += 1`). -/
def consumedNonce (t : TransactionRecord) : Bool :=
  t.status != Status.failed

/-- Concrete chain environment: the address `"bad"` cannot be
checksummed (the conversion raises), every other address is accepted and
every broadcast succeeds. -/
def demoEnv : ChainEnv :=
  { toChecksumAddress := fun r =>
      if r = "bad" then Except.error "could not convert" else Except.ok r
  , sendTx := fun tx => Except.ok ("0xhash" ++ toString tx.nonce) }

/-- Concrete chain environment in which every checksum conversion
succeeds and every broadcast raises. -/
def failSendEnv : ChainEnv :=
  { toChecksumAddress := fun r => Except.ok r
  , sendTx := fun _ => Except.error "insufficient funds for gas" }

/-- Same checksum behaviour as `demoEnv` but a broadcast operation that
always raises; used to show simulate mode never reaches the network. -/
def demoEnvNoSend : ChainEnv :=
  { toChecksumAddress := fun r =>
      if r = "bad" then Except.error "could not convert" else Except.ok r
  , sendTx := fun _ => Except.error "network unreachable" }

/-- Concrete stand-in for the wallet library, deterministic like the
real one. -/
def demoLib : CryptoLib :=
  { toSeed := fun m _ => (List.range 64).map (fun b => b + m.length)
  , addressFromKey := fun k => "0xaddr" ++ toString (k.foldl (· + ·) 0)
  , keyHex := fun k => "0x" ++ toString (k.foldl (· + ·) 0) }

/-! ## Helper lemmas on the loop body -/

theorem loop_nil (env : ChainEnv) (tm : Bool) (s : String) (aw gp i n : Nat) :
    distributeLoop env tm s aw gp i n [] = [] := rfl

theorem loop_cons (env : ChainEnv) (tm : Bool) (s : String) (aw gp i n : Nat)
    (r : String) (rs : List String) :
    distributeLoop env tm s aw gp i n (r :: rs) =
      (processRecipient env tm s aw gp i n r).1 ::
        distributeLoop env tm s aw gp (i + 1) (processRecipient env tm s aw gp i n r).2 rs := rfl

theorem processRecipient_recipient (env : ChainEnv) (tm : Bool) (s : String)
    (aw gp i n : Nat) (r : String) :
    (processRecipient env tm s aw gp i n r).1.recipient = r := by
  unfold processRecipient
  rcases env.toChecksumAddress r with e | ck
  · rfl
  · cases tm
    · simp only [Bool.false_eq_true, if_false]
      rcases env.sendTx _ with e | h <;> rfl
    · rfl

theorem processRecipient_position (env : ChainEnv) (tm : Bool) (s : String)
    (aw gp i n : Nat) (r : String) :
    (processRecipient env tm s aw gp i n r).1.position = i := by
  unfold processRecipient
  rcases env.toChecksumAddress r with e | ck
  · rfl
  · cases tm
    · simp only [Bool.false_eq_true, if_false]
      rcases env.sendTx _ with e | h <;> rfl
    · rfl

theorem processRecipient_snd (env : ChainEnv) (tm : Bool) (s : String)
    (aw gp i n : Nat) (r : String) :
    (processRecipient env tm s aw gp i n r).2 =
      n + (if consumedNonce (processRecipient env tm s aw gp i n r).1 then 1 else 0) := by
  unfold processRecipient
  rcases env.toChecksumAddress r with e | ck
  · rfl
  · cases tm
    · simp only [Bool.false_eq_true, if_false]
      rcases env.sendTx _ with e | h <;> rfl
    · rfl

theorem processRecipient_nonceUsed (env : ChainEnv) (tm : Bool) (s : String)
    (aw gp i n : Nat) (r : String) (m : Nat)
    (h : (processRecipient env tm s aw gp i n r).1.nonceUsed = some m) : m = n := by
  unfold processRecipient at h
  rcases hck : env.toChecksumAddress r with e | ck <;> rw [hck] at h
  · simp at h
  · cases tm
    · simp only [Bool.false_eq_true, if_false] at h
      rcases hs : env.sendTx _ with e | hx <;> rw [hs] at h <;>
        simpa using h.symm
    · simpa using h.symm

theorem processRecipient_checksum_error (env : ChainEnv) (tm : Bool) (s : String)
    (aw gp i n : Nat) (r : String) (e : String)
    (h : env.toChecksumAddress r = Except.error e) :
    processRecipient env tm s aw gp i n r =
      ({ position := i, recipient := r, status := Status.failed,
         nonceUsed := none, txHash := none, error := some e }, n) := by
  unfold processRecipient
  rw [h]

theorem processRecipient_simulate_ok (env : ChainEnv) (s : String)
    (aw gp i n : Nat) (r ck : String)
    (h : env.toChecksumAddress r = Except.ok ck) :
    processRecipient env true s aw gp i n r =
      ({ position := i, recipient := r, status := Status.simulated,
         nonceUsed := some n, txHash := none, error := none }, n + 1) := by
  unfold processRecipient
  rw [h]
  rfl

theorem processRecipient_send_error (env : ChainEnv) (s : String)
    (aw gp i n : Nat) (r ck e : String)
    (hck : env.toChecksumAddress r = Except.ok ck)
    (hs : env.sendTx (mkTx s ck aw n gp) = Except.error e) :
    processRecipient env false s aw gp i n r =
      ({ position := i, recipient := r, status := Status.failed,
         nonceUsed := some n, txHash := none, error := some e }, n) := by
  unfold processRecipient
  rw [hck]
  dsimp only
  simp only [Bool.false_eq_true, if_false, hs]
  rfl

theorem loop_length (env : ChainEnv) (tm : Bool) (s : String) (aw gp : Nat) :
    ∀ (rs : List String) (i n : Nat),
      (distributeLoop env tm s aw gp i n rs).length = rs.length := by
  intro rs
  induction rs with
  | nil => intro i n; rfl
  | cons r rs ih =>
    intro i n
    rw [loop_cons, List.length_cons, List.length_cons, ih]

theorem loop_map_recipient (env : ChainEnv) (tm : Bool) (s : String) (aw gp : Nat) :
    ∀ (rs : List String) (i n : Nat),
      (distributeLoop env tm s aw gp i n rs).map TransactionRecord.recipient = rs := by
  intro rs
  induction rs with
  | nil => intro i n; rfl
  | cons r rs ih =>
    intro i n
    rw [loop_cons, List.map_cons, processRecipient_recipient, ih]

theorem loop_map_position (env : ChainEnv) (tm : Bool) (s : String) (aw gp : Nat) :
    ∀ (rs : List String) (i n : Nat),
      (distributeLoop env tm s aw gp i n rs).map TransactionRecord.position =
        List.range' i rs.length := by
  intro rs
  induction rs with
  | nil => intro i n; rfl
  | cons r rs ih =>
    intro i n
    rw [loop_cons, List.map_cons, processRecipient_position, List.length_cons,
      List.range'_succ, ih]

theorem loop_nonce_assignment (env : ChainEnv) (tm : Bool) (s : String) (aw gp : Nat) :
    ∀ (rs : List String) (i n k : Nat) (t : TransactionRecord) (m : Nat),
      (distributeLoop env tm s aw gp i n rs).get? k = some t →
      t.nonceUsed = some m →
      m = n + ((distributeLoop env tm s aw gp i n rs).take k).countP consumedNonce := by
  intro rs
  induction rs with
  | nil => intro i n k t m h; simp [distributeLoop] at h
  | cons r rs ih =>
    intro i n k t m h hm
    rw [loop_cons] at h ⊢
    cases k with
    | zero =>
      simp only [List.get?] at h
      injection h with h
      subst h
      simpa using processRecipient_nonceUsed env tm s aw gp i n r m hm
    | succ k =>
      simp only [List.get?] at h
      have hrec := ih (i + 1) (processRecipient env tm s aw gp i n r).2 k t m h hm
      have hsnd := processRecipient_snd env tm s aw gp i n r
      rw [List.take_succ_cons, List.countP_cons]
      rcases hc : consumedNonce (processRecipient env tm s aw gp i n r).1 <;>
        simp only [hc, Bool.false_eq_true, if_false, if_true] at hsnd <;>
        simp only [Bool.false_eq_true, if_false, if_true] <;>
        omega

theorem loop_sendTx_irrelevant (env₁ env₂ : ChainEnv)
    (h : env₁.toChecksumAddress = env₂.toChecksumAddress) (s : String) (aw gp : Nat) :
    ∀ (rs : List String) (i n : Nat),
      distributeLoop env₁ true s aw gp i n rs = distributeLoop env₂ true s aw gp i n rs := by
  have hstep : ∀ (i n : Nat) (r : String),
      processRecipient env₁ true s aw gp i n r = processRecipient env₂ true s aw gp i n r := by
    intro i n r
    unfold processRecipient
    rw [h]
    rcases env₂.toChecksumAddress r with e | ck
    · rfl
    · rfl
  intro rs
  induction rs with
  | nil => intro i n; rfl
  | cons r rs ih =>
    intro i n
    rw [loop_cons, loop_cons, hstep, ih]

/-! ## Claim theorems -/

/-- C1 counterexample: running the loop in simulate mode over
`["bad", "good"]` from base nonce 0, the iteration for `"bad"` fails
(checksum conversion raises) and the nonce counter is NOT incremented, so
the transaction built for the recipient at 1-indexed position 2 carries
nonce 0 rather than base_nonce + (2-1) = 1, refuting the claim that the
counter is incremented after every iteration including failures. -/
theorem C1_counterexample :
    (distributeLoop demoEnv true "S" 5 2 1 0 ["bad", "good"]).map TransactionRecord.nonceUsed
      = [none, some 0] ∧ (some 0 : Option Nat) ≠ some (0 + (2 - 1)) := by
  exact ⟨rfl, by decide⟩

/-- C1 (amended): the nonce assigned to the transaction built for the
recipient at position i equals base_nonce plus the number of earlier
iterations whose outcome was not `Failed`; the counter is incremented
only after non-failing iterations — a per-item failure skips
`nonce += 1`, so the failed slot's nonce is reused by the next
recipient. -/
theorem C1_nonce_assignment_amended (env : ChainEnv) (tm : Bool) (s : String)
    (aw gp : Nat) (rs : List String) (base k m : Nat) (t : TransactionRecord)
    (hget : (distributeLoop env tm s aw gp 1 base rs).get? k = some t)
    (hnonce : t.nonceUsed = some m) :
    m = base + ((distributeLoop env tm s aw gp 1 base rs).take k).countP consumedNonce :=
  loop_nonce_assignment env tm s aw gp rs 1 base k t m hget hnonce

/-- Witness for the amended C1: in the simulate run over
`["bad", "good"]` from base nonce 0, the record at index 1 carries nonce
0 = base + (number of non-failed records before it). -/
theorem C1_nonce_assignment_amended_witness :
    (0 : Nat) = 0 + ((distributeLoop demoEnv true "S" 5 2 1 0 ["bad", "good"]).take 1).countP consumedNonce :=
  C1_nonce_assignment_amended demoEnv true "S" 5 2 ["bad", "good"] 0 1 0
    { position := 2, recipient := "good", status := Status.simulated,
      nonceUsed := some 0, txHash := none, error := none } rfl rfl

/-- C2: the preflight total cost equals
recipient_count * (amount + gas_price * gas_limit) exactly, and whenever
the sender balance is below it the run aborts with the
insufficient-balance error before any transaction is attempted (no loop
iteration runs, so nothing is signed, broadcast or logged). -/
theorem C2_preflight_insufficient_balance (env : ChainEnv) (net : NetworkState)
    (tm : Bool) (aw : Nat) (recipients : List String) :
    total_needed aw net.gas_price recipients.length =
      recipients.length * (aw + net.gas_price * GAS_LIMIT) ∧
    (net.sender_balance < recipients.length * (aw + net.gas_price * GAS_LIMIT) →
      distribute_pol env net tm aw recipients =
        Except.error (DistError.insufficientBalance
          (total_needed aw net.gas_price recipients.length) net.sender_balance)) := by
  constructor
  · exact Nat.mul_comm _ _
  · intro h
    have h' : net.sender_balance < total_needed aw net.gas_price recipients.length := by
      rw [total_needed, Nat.mul_comm]
      exact h
    unfold distribute_pol
    rw [if_pos h']

/-- Witness for C2: with balance 10, gas price 1 and one recipient of 5
wei, the needed total is 21005 and the run aborts. -/
theorem C2_preflight_insufficient_balance_witness :
    distribute_pol demoEnv
        { sender_address := "S", base_nonce := 0, sender_balance := 10, gas_price := 1 }
        false 5 ["good"] =
      Except.error (DistError.insufficientBalance (total_needed 5 1 1) 10) :=
  (C2_preflight_insufficient_balance demoEnv
    { sender_address := "S", base_nonce := 0, sender_balance := 10, gas_price := 1 }
    false 5 ["good"]).2 (by decide)

/-- C3: the loop writes exactly one outcome per recipient, in input
order at 1-indexed positions; an iteration whose attempt raises — either
at checksum conversion or at the sign/broadcast/receipt step — is
recorded as `Failed` with the error message, and the loop continues over
every remaining recipient. -/
theorem C3_per_item_failure_isolation (env : ChainEnv) (tm : Bool) (s : String)
    (aw gp base : Nat) (rs : List String) :
    ((distributeLoop env tm s aw gp 1 base rs).length = rs.length) ∧
    ((distributeLoop env tm s aw gp 1 base rs).map TransactionRecord.recipient = rs) ∧
    ((distributeLoop env tm s aw gp 1 base rs).map TransactionRecord.position =
      List.range' 1 rs.length) ∧
    (∀ (i n : Nat) (r : String) (rest : List String) (e : String),
      env.toChecksumAddress r = Except.error e →
      distributeLoop env tm s aw gp i n (r :: rest) =
        { position := i, recipient := r, status := Status.failed,
          nonceUsed := none, txHash := none, error := some e } ::
          distributeLoop env tm s aw gp (i + 1) n rest) ∧
    (∀ (i n : Nat) (r ck : String) (rest : List String) (e : String),
      env.toChecksumAddress r = Except.ok ck →
      env.sendTx (mkTx s ck aw n gp) = Except.error e →
      distributeLoop env false s aw gp i n (r :: rest) =
        { position := i, recipient := r, status := Status.failed,
          nonceUsed := some n, txHash := none, error := some e } ::
          distributeLoop env false s aw gp (i + 1) n rest) := by
  refine ⟨loop_length env tm s aw gp rs 1 base,
          loop_map_recipient env tm s aw gp rs 1 base,
          loop_map_position env tm s aw gp rs 1 base, ?_, ?_⟩
  · intro i n r rest e h
    rw [loop_cons, processRecipient_checksum_error env tm s aw gp i n r e h]
  · intro i n r ck rest e hck hs
    rw [loop_cons, processRecipient_send_error env s aw gp i n r ck e hck hs]

/-- Witness for C3: every broadcast raising makes position 1 a `Failed`
record while the loop still proceeds to the rest of the list. -/
theorem C3_per_item_failure_isolation_witness :
    distributeLoop failSendEnv false "S" 5 2 1 0 ["r1", "r2"] =
      { position := 1, recipient := "r1", status := Status.failed,
        nonceUsed := some 0, txHash := none, error := some "insufficient funds for gas" } ::
        distributeLoop failSendEnv false "S" 5 2 2 0 ["r2"] :=
  (C3_per_item_failure_isolation failSendEnv false "S" 5 2 0 ["r1", "r2"]).2.2.2.2
    1 0 "r1" "r1" ["r2"] "insufficient funds for gas" rfl rfl

/-- C4 counterexample: in a simulate-mode run over
`["ok1", "bad", "ok2"]` from base nonce 7, the nonce counter is not
incremented for the failed middle recipient: the third transaction
carries nonce 8 instead of base_nonce + 2 = 9, refuting the claim that
the counter advances by 1 per recipient. -/
theorem C4_counterexample :
    (distributeLoop demoEnv true "S" 9 3 1 7 ["ok1", "bad", "ok2"]).map TransactionRecord.nonceUsed
      = [some 7, none, some 8] ∧ (8 : Nat) ≠ 7 + 2 := by
  exact ⟨rfl, by decide⟩

/-- C4 (amended): with the simulate flag set the loop never touches the
signing/broadcast/receipt operations (its output is unchanged under any
replacement of them), records one outcome per recipient, and increments
the nonce counter by 1 exactly for the recipients whose checksum
conversion succeeds (recorded `Simulated` with the current counter
value); a conversion failure is recorded `Failed` without incrementing. -/
theorem C4_simulate_amended (env₁ env₂ : ChainEnv)
    (hck : env₁.toChecksumAddress = env₂.toChecksumAddress)
    (s : String) (aw gp base : Nat) (rs : List String) :
    (distributeLoop env₁ true s aw gp 1 base rs = distributeLoop env₂ true s aw gp 1 base rs) ∧
    ((distributeLoop env₁ true s aw gp 1 base rs).length = rs.length) ∧
    (∀ (i n : Nat) (r ck : String),
      env₁.toChecksumAddress r = Except.ok ck →
      processRecipient env₁ true s aw gp i n r =
        ({ position := i, recipient := r, status := Status.simulated,
           nonceUsed := some n, txHash := none, error := none }, n + 1)) ∧
    (∀ (i n : Nat) (r e : String),
      env₁.toChecksumAddress r = Except.error e →
      processRecipient env₁ true s aw gp i n r =
        ({ position := i, recipient := r, status := Status.failed,
           nonceUsed := none, txHash := none, error := some e }, n)) :=
  ⟨loop_sendTx_irrelevant env₁ env₂ hck s aw gp rs 1 base,
   loop_length env₁ true s aw gp rs 1 base,
   fun i n r ck h => processRecipient_simulate_ok env₁ s aw gp i n r ck h,
   fun i n r e h => processRecipient_checksum_error env₁ true s aw gp i n r e h⟩

/-- Witness for the amended C4: the simulate run over `["ok1", "bad"]`
is identical under an environment whose broadcast always raises, and the
first recipient is recorded `Simulated` with nonce 7, advancing the
counter to 8. -/
theorem C4_simulate_amended_witness :
    (distributeLoop demoEnv true "S" 9 3 1 7 ["ok1", "bad"] =
      distributeLoop demoEnvNoSend true "S" 9 3 1 7 ["ok1", "bad"]) ∧
    ((distributeLoop demoEnv true "S" 9 3 1 7 ["ok1", "bad"]).length = 2) ∧
    (processRecipient demoEnv true "S" 9 3 1 7 "ok1" =
      ({ position := 1, recipient := "ok1", status := Status.simulated,
         nonceUsed := some 7, txHash := none, error := none }, 8)) := by
  obtain ⟨h1, h2, h3, h4⟩ := C4_simulate_amended demoEnv demoEnvNoSend rfl "S" 9 3 7 ["ok1", "bad"]
  exact ⟨h1, h2, h3 1 7 "ok1" "ok1" rfl⟩

/-- C10: checksum conversion happens before the simulate branch, so even
with the simulate flag set a recipient whose address cannot be converted
is recorded `Failed` — simulate-mode runs are not guaranteed to produce
only `Simulated` outcomes. -/
theorem C10_simulate_checksum_failure (env : ChainEnv) (s : String) (aw gp i n : Nat)
    (r e : String) (rest : List String)
    (h : env.toChecksumAddress r = Except.error e) :
    distributeLoop env true s aw gp i n (r :: rest) =
      { position := i, recipient := r, status := Status.failed,
        nonceUsed := none, txHash := none, error := some e } ::
        distributeLoop env true s aw gp (i + 1) n rest := by
  rw [loop_cons, processRecipient_checksum_error env true s aw gp i n r e h]

/-- Witness for C10: a simulate-mode run over the single unconvertible
address `"bad"` yields one `Failed` record. -/
theorem C10_simulate_checksum_failure_witness :
    distributeLoop demoEnv true "S" 5 2 1 0 ["bad"] =
      { position := 1, recipient := "bad", status := Status.failed,
        nonceUsed := none, txHash := none, error := some "could not convert" } ::
        distributeLoop demoEnv true "S" 5 2 2 0 [] :=
  C10_simulate_checksum_failure demoEnv "S" 5 2 1 0 "bad" "could not convert" [] rfl

/-- C5 counterexample: the file content `"zz...z"` (64 times `'z'`)
normalizes to a 64-character secret that is not hex-encoded, yet
`load_private_key` accepts it — the code checks only the length, never
the encoding, refuting the "wrong encoding is rejected" half of the
claim. -/
theorem C5_counterexample :
    load_private_key (some (List.replicate 64 'z')) =
      Except.ok ('0' :: 'x' :: List.replicate 64 'z') ∧
    (List.replicate 64 'z').all isHexDigit = false := by
  exact ⟨rfl, rfl⟩

/-- C5 (amended): loading the credential normalizes the contents
(removes all whitespace, prepends `0x` when absent) and succeeds iff the
normalized secret is exactly 64 characters long — of any characters, no
encoding check; a wrong length is rejected with the invalid-format
error and a missing file with the missing-file error. -/
theorem C5_load_key_amended (raw : List Char) :
    (load_private_key none =
      Except.error "privatekey.txt file not found. Please create this file with your private key.") ∧
    ((∃ k, load_private_key (some raw) = Except.ok k) ↔ (normalizedSecret raw).length = 64) ∧
    ((normalizedSecret raw).length ≠ 64 →
      load_private_key (some raw) = Except.error "Invalid private key length") := by
  have hiff : (∃ k, load_private_key (some raw) = Except.ok k) ↔ (normalizedSecret raw).length = 64 := by
    simp only [load_private_key, normalizedSecret, withHexMarker]
    by_cases h : (stripSpace raw).take 2 = ['0', 'x']
    · simp only [if_pos h]
      have hlen : 2 ≤ (stripSpace raw).length := by
        have h2 := congrArg List.length h
        rw [List.length_take] at h2
        simp at h2
        omega
      rw [List.length_drop]
      constructor
      · rintro ⟨k, hk⟩
        by_cases h66 : (stripSpace raw).length ≠ 66
        · rw [if_pos h66] at hk
          cases hk
        · omega
      · intro hd
        refine ⟨stripSpace raw, ?_⟩
        rw [if_neg (by omega)]
    · simp only [if_neg h]
      rw [List.length_cons, List.length_cons]
      constructor
      · rintro ⟨k, hk⟩
        by_cases h66 : (stripSpace raw).length + 1 + 1 ≠ 66
        · rw [if_pos h66] at hk
          cases hk
        · omega
      · intro hd
        refine ⟨'0' :: 'x' :: stripSpace raw, ?_⟩
        rw [if_neg (by omega)]
  refine ⟨rfl, hiff, ?_⟩
  intro hne
  rcases he : load_private_key (some raw) with e | k
  · simp only [load_private_key] at he
    by_cases h66 : (withHexMarker (stripSpace raw)).length ≠ 66
    · rw [if_pos h66] at he
      cases he
      rfl
    · rw [if_neg h66] at he
      cases he
  · exact absurd (hiff.mp ⟨k, he⟩) hne

/-- Witness for the amended C5: a 64-character all-`'a'` secret is
accepted; its normalized form has length 64. -/
theorem C5_load_key_amended_witness :
    ∃ k, load_private_key (some (List.replicate 64 'a')) = Except.ok k :=
  ((C5_load_key_amended (List.replicate 64 'a')).2.1).mpr (by rfl)

/-- C6: wallet derivation is deterministic in the mnemonic: two
generation runs over the same mnemonic (same entropy), whatever their
wallet numbers and timestamps, derive the same private key and the same
address. -/
theorem C6_deterministic_derivation (lib : CryptoLib) (m : String)
    (wn₁ wn₂ : Option Nat) (t₁ t₂ : String) :
    (generate_wallet lib m wn₁ t₁).private_key = (generate_wallet lib m wn₂ t₂).private_key ∧
    (generate_wallet lib m wn₁ t₁).public_key = (generate_wallet lib m wn₂ t₂).public_key :=
  ⟨rfl, rfl⟩

/-- C7: for every requested count N ≥ 1, the multi-wallet run produces
exactly N individual record files, an aggregate file with exactly N
records, and an addresses-only file whose list has N entries and whose
count field equals N. -/
theorem C7_multi_wallet_counts (lib : CryptoLib) (mnems ts : Nat → String)
    (end_ts : String) (count : Nat) (hcount : 1 ≤ count) :
    ((generate_multiple_wallets lib mnems ts end_ts count).individual_files.length = count) ∧
    ((generate_multiple_wallets lib mnems ts end_ts count).all_wallets.length = count) ∧
    ((generate_multiple_wallets lib mnems ts end_ts count).addresses_file.addresses.length = count) ∧
    ((generate_multiple_wallets lib mnems ts end_ts count).addresses_file.count = count) := by
  unfold generate_multiple_wallets
  simp [List.length_map, List.length_range']

/-- Witness for C7: three requested wallets give three files, three
aggregate entries and an addresses file of count 3. -/
theorem C7_multi_wallet_counts_witness :
    ((generate_multiple_wallets demoLib (fun i => toString i) (fun i => toString i) "end" 3).individual_files.length = 3) ∧
    ((generate_multiple_wallets demoLib (fun i => toString i) (fun i => toString i) "end" 3).addresses_file.count = 3) := by
  obtain ⟨h1, h2, h3, h4⟩ :=
    C7_multi_wallet_counts demoLib (fun i => toString i) (fun i => toString i) "end" 3 (by decide)
  exact ⟨h1, h4⟩

/-- C8: extracting the public key of every record of the aggregate file,
in order, yields exactly the list stored in the addresses field of the
addresses-only file written by the same run. -/
theorem C8_addresses_roundtrip (lib : CryptoLib) (mnems ts : Nat → String)
    (end_ts : String) (count : Nat) :
    (generate_multiple_wallets lib mnems ts end_ts count).all_wallets.map KeyRecord.public_key =
      (generate_multiple_wallets lib mnems ts end_ts count).addresses_file.addresses := by
  unfold generate_multiple_wallets
  rw [List.map_map]
  rfl

/-- C9: the private key is exactly the first 32 bytes of the BIP39 seed
of the mnemonic with empty passphrase — no BIP32/BIP44 derivation path —
and the address is the one derived from that 32-byte key. -/
theorem C9_key_is_seed_head (lib : CryptoLib) (m : String) (wn : Option Nat) (t : String) :
    (generate_wallet lib m wn t).private_key = lib.keyHex ((lib.toSeed m "").take 32) ∧
    (generate_wallet lib m wn t).public_key = lib.addressFromKey ((lib.toSeed m "").take 32) :=
  ⟨rfl, rfl⟩

end AutoMEW
